import Mathlib

/-!
Shallow embedding of the Windows process backend of the sysinfo crate
(`src/windows/process.rs`), covering the usage-metrics calculator, the
record lifecycle (`update`, `new_from_pid`), the variable-length
name-query retry loop, environment-block parsing, handle acquisition and
the termination request.

Modelling conventions:
* `u64` values are `Nat`; `saturating_sub` is truncated `Nat` subtraction,
  `saturating_add` saturates at `2^64 - 1`.
* Every OS call is replaced by an explicit oracle input describing what the
  call would return, so the functions stay pure while keeping the exact
  control flow of the source.
* The `f32` CPU-usage arithmetic is modelled over `ℚ`.  The source test
  `denominator < 0.00001` is applied to a `u64` cast to `f32`; such a cast
  is `0.0` exactly when the integer is `0` and at least `1.0` otherwise, so
  the test is embedded as `denominator = 0`.
* Wide-character (`u16`) text is modelled as `List Nat` of code units.
-/

namespace Sysinfo

/-- Maximum value of a `u64`, the saturation point of `saturating_add`. -/
def U64_MAX : Nat := 2 ^ 64 - 1

/-- `u64::saturating_add`. -/
def saturating_add (a b : Nat) : Nat := min (a + b) U64_MAX

/-- `u64::saturating_sub` (truncated subtraction on `Nat`). -/
def saturating_sub (a b : Nat) : Nat := a - b

/-- `check_sub` from `process.rs`: `if a < b { a } else { a - b }`. -/
def check_sub (a b : Nat) : Nat := if a < b then a else a - b

/-- `CPUsageCalculationValues`: the four raw counters kept between
refreshes. -/
structure CPUsageCalculationValues where
  old_process_sys_cpu : Nat
  old_process_user_cpu : Nat
  old_system_sys_cpu : Nat
  old_system_user_cpu : Nat
deriving Repr, DecidableEq

/-- `CPUsageCalculationValues::new()`: all counters start at zero. -/
def CPUsageCalculationValues.new : CPUsageCalculationValues :=
  { old_process_sys_cpu := 0
    old_process_user_cpu := 0
    old_system_sys_cpu := 0
    old_system_user_cpu := 0 }

/-- `ProcessStatus` as used by this backend (only `Run` is produced). -/
inductive ProcessStatus
  | Run
deriving Repr, DecidableEq

/-- `DiskUsage` (from the crate root; the four fields filled in by
`ProcessInner::disk_usage`). -/
structure DiskUsage where
  written_bytes : Nat
  total_written_bytes : Nat
  read_bytes : Nat
  total_read_bytes : Nat
deriving Repr, DecidableEq

/-- Modelled from the spec: `refresh_options` (`ProcessRefreshKind`, defined
outside this backend file) is a configuration value enumerating which
sub-updates to run; this backend consults exactly the `cpu()`,
`disk_usage()` and `user()` flags. -/
structure ProcessRefreshKind where
  cpu : Bool
  disk_usage : Bool
  user : Bool
deriving Repr, DecidableEq

/-- `ProcessInner`: one record per tracked process identifier.  Text fields
are wide-character code-unit lists; the handle is `Option Unit` (present or
absent); `cpu_usage` is the `f32` field modelled over `ℚ`. -/
structure ProcessInner where
  name : List Nat
  cmd : List (List Nat)
  exe : List Nat
  pid : Nat
  user_id : Option Nat
  environ : List (List Nat)
  cwd : List Nat
  root : List Nat
  memory : Nat
  virtual_memory : Nat
  parent : Option Nat
  status : ProcessStatus
  handle : Option Unit
  cpu_calc_values : CPUsageCalculationValues
  start_time : Nat
  run_time : Nat
  cpu_usage : ℚ
  updated : Bool
  old_read_bytes : Nat
  old_written_bytes : Nat
  read_bytes : Nat
  written_bytes : Nat
deriving DecidableEq

/-- `ProcessInner::get_handle`. -/
def ProcessInner.get_handle (p : ProcessInner) : Option Unit := p.handle

/-- `ProcessInner::start_time` accessor (returns the stored field). -/
def ProcessInner.start_time_acc (p : ProcessInner) : Nat := p.start_time

/-- `ProcessInner::run_time` accessor. -/
def ProcessInner.run_time_acc (p : ProcessInner) : Nat := p.run_time

/-- `ProcessInner::cpu_usage` accessor. -/
def ProcessInner.cpu_usage_acc (p : ProcessInner) : ℚ := p.cpu_usage

/-- Oracle for the OS reads performed during one refresh: the values
`GetProcessTimes` would report (kernel and user process time), the values
`GetSystemTimes` would report, the result of `GetProcessIoCounters`
(`none` = the call failed) and of `GetProcessMemoryInfo`
(`none` = the call failed). -/
structure OsEnv where
  proc_sys : Nat
  proc_user : Nat
  global_kernel : Nat
  global_user : Nat
  iocounters : Option (Nat × Nat)
  meminfo : Option (Nat × Nat)
deriving Repr, DecidableEq

/-- The process kernel/user times actually used by `compute_cpu_usage`:
`GetProcessTimes` is only called when the record holds a handle, otherwise
the zero-initialised `FILETIME`s are used. -/
def read_proc_times (p : ProcessInner) (env : OsEnv) : Nat × Nat :=
  match p.get_handle with
  | some _ => (env.proc_sys, env.proc_user)
  | none => (0, 0)

/-- `compute_cpu_usage` from `process.rs`.  The deltas against the stored
sample use `check_sub`; the new raw counters are stored regardless of the
outcome; the `f32` test `denominator < 0.00001` on a `u64` cast becomes
`denominator = 0` (see the file header). -/
def compute_cpu_usage (p : ProcessInner) (env : OsEnv) (nb_cpus : Nat) :
    ProcessInner :=
  let sys := (read_proc_times p env).1
  let user := (read_proc_times p env).2
  let global_kernel_time := env.global_kernel
  let global_user_time := env.global_user
  let delta_global_kernel_time :=
    check_sub global_kernel_time p.cpu_calc_values.old_system_sys_cpu
  let delta_global_user_time :=
    check_sub global_user_time p.cpu_calc_values.old_system_user_cpu
  let delta_user_time := check_sub user p.cpu_calc_values.old_process_user_cpu
  let delta_sys_time := check_sub sys p.cpu_calc_values.old_process_sys_cpu
  let vals : CPUsageCalculationValues :=
    { old_process_user_cpu := user
      old_process_sys_cpu := sys
      old_system_user_cpu := global_user_time
      old_system_sys_cpu := global_kernel_time }
  let denominator := saturating_add delta_global_user_time delta_global_kernel_time
  if denominator = 0 then
    { p with cpu_calc_values := vals, cpu_usage := 0 }
  else
    { p with
      cpu_calc_values := vals
      cpu_usage :=
        100 * ((saturating_add delta_user_time delta_sys_time : ℚ) /
          (denominator : ℚ)) * (nb_cpus : ℚ) }

/-- `update_disk_usage` from `process.rs`: only acts when the record holds a
handle and `GetProcessIoCounters` succeeds; on failure it only logs. -/
def update_disk_usage (p : ProcessInner) (iocounters : Option (Nat × Nat)) :
    ProcessInner :=
  match p.get_handle with
  | none => p
  | some _ =>
    match iocounters with
    | none => p
    | some (readCount, writeCount) =>
      { p with
        old_read_bytes := p.read_bytes
        old_written_bytes := p.written_bytes
        read_bytes := readCount
        written_bytes := writeCount }

/-- `update_memory` from `process.rs`: only acts when the record holds a
handle and `GetProcessMemoryInfo` succeeds. -/
def update_memory (p : ProcessInner) (meminfo : Option (Nat × Nat)) :
    ProcessInner :=
  match p.get_handle with
  | none => p
  | some _ =>
    match meminfo with
    | none => p
    | some (workingSet, privateUsage) =>
      { p with memory := workingSet, virtual_memory := privateUsage }

/-- `ProcessInner::update`: CPU and disk sub-updates are guarded by the
refresh options, `update_memory` is called unconditionally, then `run_time`
is recomputed from the stored `start_time` with `saturating_sub`. -/
def ProcessInner.update (p : ProcessInner) (refresh_kind : ProcessRefreshKind)
    (nb_cpus : Nat) (now : Nat) (env : OsEnv) : ProcessInner :=
  let p1 := if refresh_kind.cpu then compute_cpu_usage p env nb_cpus else p
  let p2 :=
    if refresh_kind.disk_usage then update_disk_usage p1 env.iocounters else p1
  let p3 := update_memory p2 env.meminfo
  { p3 with
    run_time := saturating_sub now p3.start_time_acc
    updated := true }

/-- `ProcessInner::disk_usage`: interval deltas by `saturating_sub`,
cumulative totals are the stored raw values. -/
def ProcessInner.disk_usage (p : ProcessInner) : DiskUsage :=
  { written_bytes := saturating_sub p.written_bytes p.old_written_bytes
    total_written_bytes := p.written_bytes
    read_bytes := saturating_sub p.read_bytes p.old_read_bytes
    total_read_bytes := p.read_bytes }

/-- The two permission sets tried by `get_process_handler`:
`PROCESS_QUERY_INFORMATION | PROCESS_VM_READ` first, then
`PROCESS_QUERY_LIMITED_INFORMATION`. -/
inductive OpenMode
  | broad
  | limited
deriving Repr, DecidableEq

/-- `get_process_handler` from `process.rs`.  `os_open` is the oracle for
`OpenProcess` under each permission set (`none` = invalid handle).  Besides
the result (`HandleWrapper::new` of the last attempt) the model returns the
list of permission modes under which an OS open was actually attempted, to
make "no OS open is attempted" a statable property. -/
def get_process_handler (pid : Nat) (os_open : OpenMode → Option Unit) :
    Option Unit × List OpenMode :=
  if pid = 0 then (none, [])
  else
    match os_open OpenMode.broad with
    | some h => (some h, [OpenMode.broad])
    | none =>
      match os_open OpenMode.limited with
      | some h => (some h, [OpenMode.broad, OpenMode.limited])
      | none => (none, [OpenMode.broad, OpenMode.limited])

/-- Outcome of one iteration of the `get_process_name` loop, as a function
of the attempt index and the current `ImageName.MaximumLength`:
`LocalAlloc` failed, `NtQuerySystemInformation` succeeded with the name
data, it reported `STATUS_INFO_LENGTH_MISMATCH` (writing a new
`MaximumLength`), or it failed with a different error. -/
inductive NameStep
  | allocFail
  | ok (data : List Nat)
  | lengthMismatch (newMax : Nat)
  | otherErr
deriving Repr, DecidableEq

/-- The `for i in 0..` loop of `get_process_name`: on a length mismatch the
buffer is freed and, while `i ≤ 2`, the loop retries with the
`MaximumLength` the OS wrote back; at `i > 2` it gives up; any other error
or an allocation failure aborts; success breaks with the data. -/
def get_process_name_loop (oracle : Nat → Nat → NameStep) (i maxLen : Nat) :
    Option (List Nat) :=
  match oracle i maxLen with
  | NameStep.allocFail => none
  | NameStep.ok data => some data
  | NameStep.otherErr => none
  | NameStep.lengthMismatch newMax =>
    if i > 2 then none else get_process_name_loop oracle (i + 1) newMax
termination_by 4 - i
decreasing_by omega

/-- Modelled from the Rust standard library's documented behaviour of
`Path::file_name` on the wide string of the image name: the final path
component after the last separator (`\` = 92, `/` = 47), or `None` when
that component is empty.  (The std special case for a trailing `..`
component is not modelled; no claim exercises it.) -/
def path_file_name (s : List Nat) : Option (List Nat) :=
  let name := (s.reverse.takeWhile (fun c => c ≠ 92 ∧ c ≠ 47)).reverse
  if name = [] then none else some name

/-- `get_process_name` from `process.rs`: the retry loop starts at attempt
`0` with `MaximumLength = 1 << 7 = 128`; on success the name is the file
name of the returned image path. -/
def get_process_name (oracle : Nat → Nat → NameStep) : Option (List Nat) :=
  (get_process_name_loop oracle 0 128).bind path_file_name

/-- The `while let Some(offset) = raw_env[begin..].iter().position(|&c| c == 0)`
loop of `get_proc_env`, expressed on the suffix starting at `begin`: find
the first `0` terminator; keep the entry before it when it contains the
`=` separator (code unit 61) and continue after the terminator; otherwise
stop. -/
def env_split_loop (l : List Nat) : List (List Nat) :=
  if h : 0 ∈ l then
    let entry := l.takeWhile (fun c => c ≠ 0)
    if entry.any (fun c => c = 61) then
      entry :: env_split_loop (l.drop (entry.length + 1))
    else []
  else []
termination_by l.length
decreasing_by
  simp only [List.length_drop]
  have hlen : 0 < l.length := List.length_pos.mpr (List.ne_nil_of_mem h)
  omega

/-- `get_proc_env` from `process.rs`: on a successful environment-block
read, split the raw wide-character blob with `env_split_loop`; if the read
failed, return the empty list. -/
def get_proc_env (envResult : Except String (List Nat)) : List (List Nat) :=
  match envResult with
  | Except.ok buffer => env_split_loop buffer
  | Except.error _ => []

/-- `ProcessInner::kill_with`.  `signal_supported` models
`crate::sys::convert_signal(signal).is_some()` (modelled from the spec:
`convert_signal` lives outside this backend file; `None` means the signal
kind is unsupported on this host).  `cmd_output` is the oracle for the
`taskkill.exe` invocation: `none` = spawning the command itself failed
(`Err`), `some b` = the command ran and its exit status reported success
`b`. -/
def kill_with (signal_supported : Bool) (cmd_output : Option Bool) :
    Option Bool :=
  if signal_supported then
    match cmd_output with
    | some success => some success
    | none => some false
  else none

/-- `compute_start`: seconds since the Unix epoch from a Windows `FILETIME`
tick count (the source uses plain `u64` subtraction; the truncation at zero
of `Nat` subtraction is not exercised by any claim). -/
def compute_start (process_times : Nat) : Nat :=
  process_times / 10000000 - 11644473600

/-- `get_start_and_run_time`: `process_times` is the oracle for
`GetProcessTimes`' creation time. -/
def get_start_and_run_time (process_times : Nat) (now : Nat) : Nat × Nat :=
  let start := compute_start process_times
  let run_time := check_sub now start
  (start, run_time)

/-- Oracle bundle for the OS calls made by `ProcessInner::new_from_pid`:
the `OpenProcess` results, the `ProcessBasicInformation` query (`none` =
failed; otherwise the `InheritedFromUniqueProcessId`), the name-query
oracle, the `GetModuleFileNameExW` result, the `get_process_params` result
(command line, environment entries, cwd — `Except.error` = any step of the
foreign-address-space read failed), the `GetProcessTimes` creation time and
the token-derived user id. -/
structure NewFromPidEnv where
  os_open : OpenMode → Option Unit
  basic_info : Option Nat
  name_oracle : Nat → Nat → NameStep
  exe : List Nat
  params_result : Except String (List (List Nat) × List (List Nat) × List Nat)
  proc_times : Nat
  uid : Option Nat

/-- Modelled from the Rust standard library's documented behaviour of
`PathBuf::pop` (`root.pop()` in the source): drop the final component and
its separator. -/
def path_pop (s : List Nat) : List Nat :=
  ((s.reverse.dropWhile (fun c => c ≠ 92 ∧ c ≠ 47)).drop 1).reverse

/-- `get_process_user_id`: returns `None` immediately unless the `user()`
refresh flag is set; otherwise the token-query chain is the `uid` oracle
(`none` = some step failed). -/
def get_process_user_id (refresh_kind : ProcessRefreshKind)
    (uid : Option Nat) : Option Nat :=
  if refresh_kind.user then uid else none

/-- `ProcessInner::new_from_pid`: acquire a handle (`None` for failure),
query basic process information (`None` on failure), then build the record
exactly as the source does: name defaults to empty, `root` is the exe path
popped, failed parameter reads degrade to empty fields, parent is `None`
when `InheritedFromUniqueProcessId` is `0`. -/
def ProcessInner.new_from_pid (pid : Nat) (now : Nat)
    (refresh_kind : ProcessRefreshKind) (env : NewFromPidEnv) :
    Option ProcessInner :=
  match (get_process_handler pid env.os_open).1 with
  | none => none
  | some h =>
    match env.basic_info with
    | none => none
    | some inheritedPid =>
      let name := (get_process_name env.name_oracle).getD []
      let exe := env.exe
      let root := path_pop exe
      let cmdEnvCwd :=
        match env.params_result with
        | Except.ok args => args
        | Except.error _ => ([], [], [])
      let startRun := get_start_and_run_time env.proc_times now
      let parent : Option Nat :=
        if inheritedPid ≠ 0 then some inheritedPid else none
      let user_id := get_process_user_id refresh_kind env.uid
      some
        { handle := some h
          name := name
          pid := pid
          parent := parent
          user_id := user_id
          cmd := cmdEnvCwd.1
          environ := cmdEnvCwd.2.1
          exe := exe
          cwd := cmdEnvCwd.2.2
          root := root
          status := ProcessStatus.Run
          memory := 0
          virtual_memory := 0
          cpu_usage := 0
          cpu_calc_values := CPUsageCalculationValues.new
          start_time := startRun.1
          run_time := startRun.2
          updated := true
          old_read_bytes := 0
          old_written_bytes := 0
          read_bytes := 0
          written_bytes := 0 }

/-! Frame lemmas: which fields each sub-update leaves untouched. -/

theorem compute_cpu_usage_frame (p : ProcessInner) (env : OsEnv) (n : Nat) :
    (compute_cpu_usage p env n).start_time = p.start_time ∧
    (compute_cpu_usage p env n).memory = p.memory ∧
    (compute_cpu_usage p env n).virtual_memory = p.virtual_memory ∧
    (compute_cpu_usage p env n).read_bytes = p.read_bytes ∧
    (compute_cpu_usage p env n).written_bytes = p.written_bytes ∧
    (compute_cpu_usage p env n).old_read_bytes = p.old_read_bytes ∧
    (compute_cpu_usage p env n).old_written_bytes = p.old_written_bytes ∧
    (compute_cpu_usage p env n).handle = p.handle := by
  simp only [compute_cpu_usage]
  split <;> simp

theorem update_disk_usage_frame (p : ProcessInner) (io : Option (Nat × Nat)) :
    (update_disk_usage p io).start_time = p.start_time ∧
    (update_disk_usage p io).memory = p.memory ∧
    (update_disk_usage p io).virtual_memory = p.virtual_memory ∧
    (update_disk_usage p io).cpu_usage = p.cpu_usage ∧
    (update_disk_usage p io).cpu_calc_values = p.cpu_calc_values ∧
    (update_disk_usage p io).handle = p.handle := by
  rcases hp : p.handle with _ | u <;> rcases io with _ | ⟨r, w⟩ <;>
    simp [update_disk_usage, ProcessInner.get_handle, hp]

theorem update_memory_frame (p : ProcessInner) (m : Option (Nat × Nat)) :
    (update_memory p m).start_time = p.start_time ∧
    (update_memory p m).cpu_usage = p.cpu_usage ∧
    (update_memory p m).cpu_calc_values = p.cpu_calc_values ∧
    (update_memory p m).read_bytes = p.read_bytes ∧
    (update_memory p m).written_bytes = p.written_bytes ∧
    (update_memory p m).old_read_bytes = p.old_read_bytes ∧
    (update_memory p m).old_written_bytes = p.old_written_bytes ∧
    (update_memory p m).handle = p.handle := by
  rcases hp : p.handle with _ | u <;> rcases m with _ | ⟨ws, pv⟩ <;>
    simp [update_memory, ProcessInner.get_handle, hp]

/-- `update` recomputes `run_time` from the stored `start_time`, which no
sub-update modifies. -/
theorem update_start_run_eq (p : ProcessInner) (rk : ProcessRefreshKind)
    (n t : Nat) (env : OsEnv) :
    (p.update rk n t env).start_time = p.start_time ∧
    (p.update rk n t env).run_time = t - p.start_time := by
  unfold ProcessInner.update
  have h1 :
      (if rk.cpu then compute_cpu_usage p env n else p).start_time =
        p.start_time := by
    split
    · exact (compute_cpu_usage_frame p env n).1
    · rfl
  have h2 :
      (if rk.disk_usage then
          update_disk_usage (if rk.cpu then compute_cpu_usage p env n else p)
            env.iocounters
        else if rk.cpu then compute_cpu_usage p env n else p).start_time =
        p.start_time := by
    split
    · exact (update_disk_usage_frame _ _).1.trans h1
    · exact h1
  have h3 := (update_memory_frame
    (if rk.disk_usage then
        update_disk_usage (if rk.cpu then compute_cpu_usage p env n else p)
          env.iocounters
      else if rk.cpu then compute_cpu_usage p env n else p) env.meminfo).1
  exact ⟨h3.trans h2, by simp [ProcessInner.start_time_acc, saturating_sub, h3, h2]⟩

/-- C9: if the per-process I/O counter query fails during a disk refresh
(`GetProcessIoCounters` reports an error, modelled by the `none` oracle),
`update_disk_usage` returns the record exactly unchanged — in particular
all four disk fields keep their pre-call values. -/
theorem update_disk_usage_error_keeps_state (p : ProcessInner) :
    update_disk_usage p none = p := by
  rcases hp : p.handle with _ | u <;>
    simp [update_disk_usage, ProcessInner.get_handle, hp]

/-- C10: for process identifier 0, `get_process_handler` returns `None`
without attempting an OS open under either permission mode (the attempted
modes list is empty), whatever `OpenProcess` would have returned; hence
`new_from_pid` for pid 0 always returns no record. -/
theorem pid_zero_unreachable (now : Nat) (rk : ProcessRefreshKind)
    (env : NewFromPidEnv) :
    get_process_handler 0 env.os_open = (none, []) ∧
    ProcessInner.new_from_pid 0 now rk env = none :=
  ⟨rfl, rfl⟩

/-- C8: `kill_with` returns `None` exactly for an unsupported signal kind
(`convert_signal` returned `None`); otherwise it returns `Some false` when
spawning `taskkill.exe` fails (`cmd_output = none`) or the command reports
failure, and `Some true` when the command reports success — i.e.
`Some (cmd_output.getD false)`. -/
theorem kill_with_result (c : Option Bool) :
    kill_with false c = none ∧ kill_with true c = some (c.getD false) := by
  refine ⟨rfl, ?_⟩
  cases c <;> rfl

/-- A concrete freshly-opened record (handle held, all counters zero), used
to instantiate theorems at concrete inputs. -/
def pSample : ProcessInner :=
  { name := []
    cmd := []
    exe := []
    pid := 1
    user_id := none
    environ := []
    cwd := []
    root := []
    memory := 0
    virtual_memory := 0
    parent := none
    status := ProcessStatus.Run
    handle := some ()
    cpu_calc_values := CPUsageCalculationValues.new
    start_time := 0
    run_time := 0
    cpu_usage := 0
    updated := true
    old_read_bytes := 0
    old_written_bytes := 0
    read_bytes := 0
    written_bytes := 0 }

/-- C4: with cumulative disk counters `(r0, w0)` at one refresh and
`(r1, w1)` at the next, `disk_usage` reports interval deltas
`(r1 − r0, w1 − w0)` when the counters did not regress and cumulative
totals `(r1, w1)`; a regressing counter yields interval delta `0` while its
cumulative total is still the latest raw value. -/
theorem disk_usage_two_refreshes (p : ProcessInner) (r0 w0 r1 w1 : Nat)
    (hh : p.handle = some ()) :
    ((update_disk_usage (update_disk_usage p (some (r0, w0)))
        (some (r1, w1))).disk_usage.total_read_bytes = r1 ∧
      (update_disk_usage (update_disk_usage p (some (r0, w0)))
        (some (r1, w1))).disk_usage.total_written_bytes = w1) ∧
    (r0 ≤ r1 →
      (update_disk_usage (update_disk_usage p (some (r0, w0)))
        (some (r1, w1))).disk_usage.read_bytes = r1 - r0) ∧
    (w0 ≤ w1 →
      (update_disk_usage (update_disk_usage p (some (r0, w0)))
        (some (r1, w1))).disk_usage.written_bytes = w1 - w0) ∧
    (r1 < r0 →
      (update_disk_usage (update_disk_usage p (some (r0, w0)))
        (some (r1, w1))).disk_usage.read_bytes = 0) ∧
    (w1 < w0 →
      (update_disk_usage (update_disk_usage p (some (r0, w0)))
        (some (r1, w1))).disk_usage.written_bytes = 0) := by
  have e1 : update_disk_usage p (some (r0, w0)) =
      { p with
        old_read_bytes := p.read_bytes
        old_written_bytes := p.written_bytes
        read_bytes := r0
        written_bytes := w0 } := by
    simp [update_disk_usage, ProcessInner.get_handle, hh]
  have e2 : update_disk_usage (update_disk_usage p (some (r0, w0)))
      (some (r1, w1)) =
      { p with
        old_read_bytes := r0
        old_written_bytes := w0
        read_bytes := r1
        written_bytes := w1 } := by
    rw [e1]
    simp [update_disk_usage, ProcessInner.get_handle, hh]
  rw [e2]
  refine ⟨⟨rfl, rfl⟩, fun _ => rfl, fun _ => rfl, fun h => ?_, fun h => ?_⟩ <;>
    simp only [ProcessInner.disk_usage, saturating_sub] <;> omega

/-- Witness for C4 at concrete counters: `(3, 9)` then `(10, 4)` — the read
counter advances (delta `7`, total `10`), the write counter regresses
(delta `0`, total `4`). -/
theorem disk_usage_two_refreshes_witness :
    ((update_disk_usage (update_disk_usage pSample (some (3, 9)))
        (some (10, 4))).disk_usage.total_read_bytes = 10 ∧
      (update_disk_usage (update_disk_usage pSample (some (3, 9)))
        (some (10, 4))).disk_usage.total_written_bytes = 4) ∧
    (update_disk_usage (update_disk_usage pSample (some (3, 9)))
      (some (10, 4))).disk_usage.read_bytes = 7 ∧
    (update_disk_usage (update_disk_usage pSample (some (3, 9)))
      (some (10, 4))).disk_usage.written_bytes = 0 :=
  ⟨(disk_usage_two_refreshes pSample 3 9 10 4 rfl).1,
    (disk_usage_two_refreshes pSample 3 9 10 4 rfl).2.1 (by decide),
    (disk_usage_two_refreshes pSample 3 9 10 4 rfl).2.2.2.2 (by decide)⟩

/-- C7: a refresh at time `t` recomputes `run_time` from the stored
original `start_time` (which `update` never modifies): `run_time` equals
`t − start_time` whenever `start_time ≤ t`, and for `t1 ≤ t2` the recomputed
`run_time` is non-decreasing. -/
theorem update_run_time_from_fingerprint (p : ProcessInner)
    (rk : ProcessRefreshKind) (n : Nat) (env : OsEnv) (t t1 t2 : Nat)
    (hst : p.start_time ≤ t) (h12 : t1 ≤ t2) :
    (p.update rk n t env).start_time = p.start_time ∧
    (p.update rk n t env).run_time + p.start_time = t ∧
    (p.update rk n t1 env).run_time ≤ (p.update rk n t2 env).run_time := by
  refine ⟨(update_start_run_eq p rk n t env).1, ?_, ?_⟩
  · rw [(update_start_run_eq p rk n t env).2]
    omega
  · rw [(update_start_run_eq p rk n t1 env).2,
      (update_start_run_eq p rk n t2 env).2]
    omega

/-- Witness for C7: a record with fingerprint `start_time = 5`, refreshed at
`t = 12` (and monotonicity between `t1 = 12` and `t2 = 30`). -/
theorem update_run_time_from_fingerprint_witness :
    ({ pSample with start_time := 5 }.update
        (ProcessRefreshKind.mk true true true) 1 12
        (OsEnv.mk 0 0 0 0 none none)).start_time = 5 ∧
    ({ pSample with start_time := 5 }.update
        (ProcessRefreshKind.mk true true true) 1 12
        (OsEnv.mk 0 0 0 0 none none)).run_time + 5 = 12 ∧
    ({ pSample with start_time := 5 }.update
        (ProcessRefreshKind.mk true true true) 1 12
        (OsEnv.mk 0 0 0 0 none none)).run_time ≤
      ({ pSample with start_time := 5 }.update
        (ProcessRefreshKind.mk true true true) 1 30
        (OsEnv.mk 0 0 0 0 none none)).run_time :=
  update_run_time_from_fingerprint { pSample with start_time := 5 }
    (ProcessRefreshKind.mk true true true) 1 (OsEnv.mk 0 0 0 0 none none)
    12 12 30 (by decide) (by decide)

/-- A refresh request selecting none of the sub-updates. -/
def rkOff : ProcessRefreshKind := { cpu := false, disk_usage := false, user := false }

/-- An OS environment in which only the memory query would return fresh
data (working set 5, private usage 7). -/
def envMemOnly : OsEnv :=
  { proc_sys := 0
    proc_user := 0
    global_kernel := 0
    global_user := 0
    iocounters := none
    meminfo := some (5, 7) }

/-- C2 counterexample: with a refresh request selecting no sub-update at
all, `update` still changes the record's memory field (from `0` to the
freshly queried working-set size `5`), because `update_memory` is called
unconditionally — so the memory sub-update is not individually optional. -/
theorem update_memory_not_optional :
    rkOff.cpu = false ∧ rkOff.disk_usage = false ∧ rkOff.user = false ∧
    pSample.memory = 0 ∧
    (pSample.update rkOff 1 0 envMemOnly).memory = 5 :=
  ⟨rfl, rfl, rfl, rfl, rfl⟩

/-- C2 amended: the CPU and disk I/O sub-updates are individually optional
(deselecting one leaves its fields unchanged), but the memory sub-update is
not: `update` refreshes memory unconditionally whenever the record holds a
handle and the OS memory query succeeds, regardless of the options. -/
theorem update_optional_subupdates (p : ProcessInner)
    (rk : ProcessRefreshKind) (n t ws pv : Nat) (env : OsEnv) :
    (rk.cpu = false →
      (p.update rk n t env).cpu_usage = p.cpu_usage ∧
      (p.update rk n t env).cpu_calc_values = p.cpu_calc_values) ∧
    (rk.disk_usage = false →
      (p.update rk n t env).read_bytes = p.read_bytes ∧
      (p.update rk n t env).written_bytes = p.written_bytes ∧
      (p.update rk n t env).old_read_bytes = p.old_read_bytes ∧
      (p.update rk n t env).old_written_bytes = p.old_written_bytes) ∧
    (p.handle = some () → env.meminfo = some (ws, pv) →
      (p.update rk n t env).memory = ws ∧
      (p.update rk n t env).virtual_memory = pv) := by
  have e : p.update rk n t env =
      { update_memory
          (if rk.disk_usage then
              update_disk_usage
                (if rk.cpu then compute_cpu_usage p env n else p)
                env.iocounters
            else if rk.cpu then compute_cpu_usage p env n else p)
          env.meminfo with
        run_time :=
          saturating_sub t
            (update_memory
                (if rk.disk_usage then
                    update_disk_usage
                      (if rk.cpu then compute_cpu_usage p env n else p)
                      env.iocounters
                  else if rk.cpu then compute_cpu_usage p env n else p)
                env.meminfo).start_time_acc
        updated := true } := rfl
  rw [e]
  set P1 := if rk.cpu then compute_cpu_usage p env n else p with hP1
  set P2 := if rk.disk_usage then update_disk_usage P1 env.iocounters else P1
    with hP2
  refine ⟨?_, ?_, ?_⟩
  · intro hc
    have h1 : P1 = p := by rw [hP1, hc]; simp
    have h2cu : P2.cpu_usage = p.cpu_usage := by
      rw [hP2]
      split
      · rw [(update_disk_usage_frame P1 env.iocounters).2.2.2.1, h1]
      · rw [h1]
    have h2cv : P2.cpu_calc_values = p.cpu_calc_values := by
      rw [hP2]
      split
      · rw [(update_disk_usage_frame P1 env.iocounters).2.2.2.2.1, h1]
      · rw [h1]
    exact ⟨((update_memory_frame P2 env.meminfo).2.1).trans h2cu,
      ((update_memory_frame P2 env.meminfo).2.2.1).trans h2cv⟩
  · intro hd
    have h2 : P2 = P1 := by rw [hP2, hd]; simp
    have h1r : P1.read_bytes = p.read_bytes := by
      rw [hP1]
      split
      · exact (compute_cpu_usage_frame p env n).2.2.2.1
      · rfl
    have h1w : P1.written_bytes = p.written_bytes := by
      rw [hP1]
      split
      · exact (compute_cpu_usage_frame p env n).2.2.2.2.1
      · rfl
    have h1or : P1.old_read_bytes = p.old_read_bytes := by
      rw [hP1]
      split
      · exact (compute_cpu_usage_frame p env n).2.2.2.2.2.1
      · rfl
    have h1ow : P1.old_written_bytes = p.old_written_bytes := by
      rw [hP1]
      split
      · exact (compute_cpu_usage_frame p env n).2.2.2.2.2.2.1
      · rfl
    refine ⟨?_, ?_, ?_, ?_⟩
    · exact ((update_memory_frame P2 env.meminfo).2.2.2.1).trans
        (by rw [h2, h1r])
    · exact ((update_memory_frame P2 env.meminfo).2.2.2.2.1).trans
        (by rw [h2, h1w])
    · exact ((update_memory_frame P2 env.meminfo).2.2.2.2.2.1).trans
        (by rw [h2, h1or])
    · exact ((update_memory_frame P2 env.meminfo).2.2.2.2.2.2.1).trans
        (by rw [h2, h1ow])
  · intro hh hm
    have h1h : P1.handle = some () := by
      rw [hP1]
      split
      · exact ((compute_cpu_usage_frame p env n).2.2.2.2.2.2.2).trans hh
      · exact hh
    have h2h : P2.handle = some () := by
      rw [hP2]
      split
      · exact ((update_disk_usage_frame P1 env.iocounters).2.2.2.2.2).trans h1h
      · exact h1h
    have hm2 : update_memory P2 env.meminfo =
        { P2 with memory := ws, virtual_memory := pv } := by
      rw [hm]
      simp [update_memory, ProcessInner.get_handle, h2h]
    rw [hm2]
    exact ⟨rfl, rfl⟩

/-- Witness for C2's amended claim: with every option deselected, the CPU
and disk fields of `pSample` are unchanged while memory is refreshed to the
queried values `(5, 7)`. -/
theorem update_optional_subupdates_witness :
    ((pSample.update rkOff 1 0 envMemOnly).cpu_usage = pSample.cpu_usage ∧
      (pSample.update rkOff 1 0 envMemOnly).cpu_calc_values =
        pSample.cpu_calc_values) ∧
    ((pSample.update rkOff 1 0 envMemOnly).read_bytes = pSample.read_bytes ∧
      (pSample.update rkOff 1 0 envMemOnly).written_bytes =
        pSample.written_bytes ∧
      (pSample.update rkOff 1 0 envMemOnly).old_read_bytes =
        pSample.old_read_bytes ∧
      (pSample.update rkOff 1 0 envMemOnly).old_written_bytes =
        pSample.old_written_bytes) ∧
    ((pSample.update rkOff 1 0 envMemOnly).memory = 5 ∧
      (pSample.update rkOff 1 0 envMemOnly).virtual_memory = 7) :=
  ⟨(update_optional_subupdates pSample rkOff 1 0 5 7 envMemOnly).1 rfl,
    (update_optional_subupdates pSample rkOff 1 0 5 7 envMemOnly).2.1 rfl,
    (update_optional_subupdates pSample rkOff 1 0 5 7 envMemOnly).2.2 rfl rfl⟩

/-- The computed CPU usage is never negative (and, the arithmetic being
exact rationals guarded by the zero-denominator test, never NaN). -/
theorem compute_cpu_usage_nonneg (p : ProcessInner) (env : OsEnv) (n : Nat) :
    0 ≤ (compute_cpu_usage p env n).cpu_usage := by
  simp only [compute_cpu_usage]
  split
  · simp
  · dsimp only
    positivity

/-- An OS environment returning zero for every counter. -/
def envZero : OsEnv :=
  { proc_sys := 0
    proc_user := 0
    global_kernel := 0
    global_user := 0
    iocounters := none
    meminfo := none }

/-- A stored CPU sample whose process user counter (10) exceeds the next
raw reading. -/
def pRegress : ProcessInner :=
  { pSample with
    cpu_calc_values :=
      { old_process_sys_cpu := 0
        old_process_user_cpu := 10
        old_system_sys_cpu := 0
        old_system_user_cpu := 0 } }

/-- An OS environment where the process user time reads 5 (a regression
against the stored 10) while global user time advances by 100. -/
def envRegress : OsEnv :=
  { proc_sys := 0
    proc_user := 5
    global_kernel := 0
    global_user := 100
    iocounters := none
    meminfo := none }

/-- C1 counterexample: at a refresh where the raw process user counter
regresses (reads 5 against a stored 10), `check_sub` yields the new raw
value 5 — not 0 — and the resulting `cpu_usage` is `100·(5/100)·1 = 5`,
not 0. -/
theorem cpu_regress_not_clamped_to_zero :
    envRegress.proc_user < pRegress.cpu_calc_values.old_process_user_cpu ∧
    check_sub envRegress.proc_user
      pRegress.cpu_calc_values.old_process_user_cpu = 5 ∧
    (compute_cpu_usage pRegress envRegress 1).cpu_usage = 5 ∧
    (compute_cpu_usage pRegress envRegress 1).cpu_usage ≠ 0 := by
  refine ⟨by decide, by decide, ?_, ?_⟩ <;>
    norm_num [compute_cpu_usage, check_sub, saturating_add, read_proc_times,
      pRegress, envRegress, pSample, U64_MAX, ProcessInner.get_handle]

/-- C1 amended: when a raw counter regresses (`a < b`), the delta
`check_sub a b` used by `compute_cpu_usage` is the newly read raw value `a`
itself (counter-reset semantics), not zero; the resulting `cpu_usage` is
nevertheless never negative and never NaN (the division is guarded by the
zero-denominator test). -/
theorem cpu_regress_delta_is_new_value (a b : Nat) (p : ProcessInner)
    (env : OsEnv) (n : Nat) (h : a < b) :
    check_sub a b = a ∧ 0 ≤ (compute_cpu_usage p env n).cpu_usage :=
  ⟨by simp [check_sub, h], compute_cpu_usage_nonneg p env n⟩

/-- Witness for C1's amended claim at `a = 5`, `b = 10` and the concrete
regressing refresh. -/
theorem cpu_regress_delta_is_new_value_witness :
    check_sub 5 10 = 5 ∧
    0 ≤ (compute_cpu_usage pRegress envRegress 1).cpu_usage :=
  cpu_regress_delta_is_new_value 5 10 pRegress envRegress 1 (by decide)

/-- An OS environment whose process user delta (100) exceeds the global
time delta (50), as can happen with arbitrary counter inputs. -/
def envBurst : OsEnv :=
  { proc_sys := 0
    proc_user := 100
    global_kernel := 0
    global_user := 50
    iocounters := none
    meminfo := none }

/-- C3 counterexample: from the fresh sample (all previous counters 0) and
monotone new readings (process user 100 ≥ 0, global user 50 ≥ 0), the
computed usage is `100·(100/50)·1 = 200`, outside `[0, 100 × 1]` — the
code never clamps to the `100 × active_core_count` upper bound. -/
theorem cpu_usage_exceeds_claimed_bound :
    (compute_cpu_usage pSample envBurst 1).cpu_usage = 200 ∧
    ¬(compute_cpu_usage pSample envBurst 1).cpu_usage ≤
      100 * ((1 : Nat) : ℚ) := by
  constructor <;>
    norm_num [compute_cpu_usage, check_sub, saturating_add, read_proc_times,
      pSample, envBurst, U64_MAX, ProcessInner.get_handle,
      CPUsageCalculationValues.new]

/-- C3 amended: the computed usage is always non-negative; when the global
time delta (the denominator) is zero the usage is 0 and no division by
zero occurs; and the upper bound `100 × active_core_count` holds whenever
the process-time delta does not exceed the global-time delta (the code does
not enforce the bound for arbitrary sample pairs). -/
theorem cpu_usage_range (p : ProcessInner) (env : OsEnv) (n : Nat) :
    0 ≤ (compute_cpu_usage p env n).cpu_usage ∧
    (saturating_add
        (check_sub env.global_user p.cpu_calc_values.old_system_user_cpu)
        (check_sub env.global_kernel p.cpu_calc_values.old_system_sys_cpu) =
          0 →
      (compute_cpu_usage p env n).cpu_usage = 0) ∧
    (saturating_add
        (check_sub (read_proc_times p env).2
          p.cpu_calc_values.old_process_user_cpu)
        (check_sub (read_proc_times p env).1
          p.cpu_calc_values.old_process_sys_cpu) ≤
      saturating_add
        (check_sub env.global_user p.cpu_calc_values.old_system_user_cpu)
        (check_sub env.global_kernel p.cpu_calc_values.old_system_sys_cpu) →
      (compute_cpu_usage p env n).cpu_usage ≤ 100 * (n : ℚ)) := by
  refine ⟨compute_cpu_usage_nonneg p env n, ?_, ?_⟩
  · intro h
    simp [compute_cpu_usage, h]
  · intro h
    simp only [compute_cpu_usage]
    split
    · dsimp only
      positivity
    · rename_i hden
      dsimp only
      have hpos : (0 : ℚ) <
          ((saturating_add
            (check_sub env.global_user p.cpu_calc_values.old_system_user_cpu)
            (check_sub env.global_kernel
              p.cpu_calc_values.old_system_sys_cpu) : Nat) : ℚ) := by
        exact_mod_cast Nat.pos_of_ne_zero hden
      have hq : ((saturating_add
          (check_sub (read_proc_times p env).2
            p.cpu_calc_values.old_process_user_cpu)
          (check_sub (read_proc_times p env).1
            p.cpu_calc_values.old_process_sys_cpu) : Nat) : ℚ) /
          ((saturating_add
            (check_sub env.global_user p.cpu_calc_values.old_system_user_cpu)
            (check_sub env.global_kernel
              p.cpu_calc_values.old_system_sys_cpu) : Nat) : ℚ) ≤ 1 :=
        (div_le_one hpos).mpr (by exact_mod_cast h)
      have hq0 : (0 : ℚ) ≤ ((saturating_add
          (check_sub (read_proc_times p env).2
            p.cpu_calc_values.old_process_user_cpu)
          (check_sub (read_proc_times p env).1
            p.cpu_calc_values.old_process_sys_cpu) : Nat) : ℚ) /
          ((saturating_add
            (check_sub env.global_user p.cpu_calc_values.old_system_user_cpu)
            (check_sub env.global_kernel
              p.cpu_calc_values.old_system_sys_cpu) : Nat) : ℚ) := by
        positivity
      have hn : (0 : ℚ) ≤ (n : ℚ) := Nat.cast_nonneg n
      nlinarith [mul_nonneg (sub_nonneg.mpr hq) hn]

/-- Witness for C3's amended claim: at the all-zero refresh the usage is 0
(denominator zero), non-negative, and within the bound. -/
theorem cpu_usage_range_witness :
    0 ≤ (compute_cpu_usage pSample envZero 1).cpu_usage ∧
    (compute_cpu_usage pSample envZero 1).cpu_usage = 0 ∧
    (compute_cpu_usage pSample envZero 1).cpu_usage ≤ 100 * ((1 : Nat) : ℚ) :=
  ⟨(cpu_usage_range pSample envZero 1).1,
    (cpu_usage_range pSample envZero 1).2.1 (by decide),
    (cpu_usage_range pSample envZero 1).2.2 (by decide)⟩

/-- C5: the variable-length name query is guarded by a bounded retry count:
an OS that reports a size mismatch on every attempt makes
`get_process_name` return `None` (after the constant bound, instead of
looping forever), while an OS that reports a mismatch exactly twice (at
attempts 0 and 1) and then succeeds yields the correctly sized data of the
successful call. -/
theorem name_query_bounded_retries :
    (∀ oracle : Nat → Nat → NameStep,
      (∀ i m, ∃ nm, oracle i m = NameStep.lengthMismatch nm) →
      get_process_name oracle = none) ∧
    (∀ (oracle : Nat → Nat → NameStep) (m1 m2 : Nat) (data : List Nat),
      oracle 0 128 = NameStep.lengthMismatch m1 →
      oracle 1 m1 = NameStep.lengthMismatch m2 →
      oracle 2 m2 = NameStep.ok data →
      get_process_name oracle = path_file_name data) := by
  constructor
  · intro oracle h
    obtain ⟨n0, h0⟩ := h 0 128
    obtain ⟨n1, h1⟩ := h 1 n0
    obtain ⟨n2, h2⟩ := h 2 n1
    obtain ⟨n3, h3⟩ := h 3 n2
    unfold get_process_name
    rw [get_process_name_loop, h0]
    norm_num
    rw [get_process_name_loop, h1]
    norm_num
    rw [get_process_name_loop, h2]
    norm_num
    rw [get_process_name_loop, h3]
    simp
  · intro oracle m1 m2 data h0 h1 h2
    unfold get_process_name
    rw [get_process_name_loop, h0]
    norm_num
    rw [get_process_name_loop, h1]
    norm_num
    rw [get_process_name_loop, h2]
    simp

/-- An OS that reports a length mismatch on every attempt. -/
def oracleAlwaysMismatch : Nat → Nat → NameStep :=
  fun _ _ => NameStep.lengthMismatch 256

/-- An OS that reports a length mismatch exactly twice, then succeeds with
the image name data `[65, 66]`. -/
def oracleTwiceThenOk : Nat → Nat → NameStep := fun i _ =>
  if i < 2 then NameStep.lengthMismatch (256 * (i + 1))
  else NameStep.ok [65, 66]

/-- Witness for C5 at the two concrete oracles. -/
theorem name_query_bounded_retries_witness :
    get_process_name oracleAlwaysMismatch = none ∧
    get_process_name oracleTwiceThenOk = path_file_name [65, 66] :=
  ⟨name_query_bounded_retries.1 oracleAlwaysMismatch
      (fun _ _ => ⟨256, rfl⟩),
    name_query_bounded_retries.2 oracleTwiceThenOk 256 512 [65, 66]
      rfl rfl rfl⟩

/-- `takeWhile (c ≠ 0)` of a zero-free prefix followed by a `0` terminator
is exactly that prefix. -/
theorem takeWhile_ne_zero_append :
    ∀ (e rest : List Nat), (∀ c ∈ e, c ≠ 0) →
      (e ++ 0 :: rest).takeWhile (fun c => c ≠ 0) = e := by
  intro e
  induction e with
  | nil =>
    intro rest h0
    rw [List.nil_append, List.takeWhile_cons, if_neg (by decide)]
  | cons a as ih =>
    intro rest h0
    have ha0 : a ≠ 0 := h0 a (by simp)
    have htail := ih rest (fun c hc => h0 c (by simp [hc]))
    have hpa : decide (a ≠ 0) = true := decide_eq_true ha0
    rw [List.cons_append, List.takeWhile_cons, if_pos hpa, htail]

/-- One iteration of the environment-splitting loop on a blob that starts
with a zero-free entry followed by its terminator: the entry is kept and
the loop continues after the terminator when it contains `=` (61),
otherwise the loop stops. -/
theorem env_split_loop_step (e rest : List Nat) (h0 : ∀ c ∈ e, c ≠ 0) :
    env_split_loop (e ++ 0 :: rest) =
      if e.any (fun c => c = 61) then e :: env_split_loop rest else [] := by
  have hmem : (0 : Nat) ∈ e ++ 0 :: rest := by simp
  have htake := takeWhile_ne_zero_append e rest h0
  have hdrop : (e ++ 0 :: rest).drop (e.length + 1) = rest := by
    have hsplit : e ++ 0 :: rest = (e ++ [0]) ++ rest := by simp
    have hl : (e ++ [0]).length = e.length + 1 := by simp
    rw [hsplit, ← hl, List.drop_left]
  conv_lhs => rw [env_split_loop]
  rw [dif_pos hmem]
  simp only [htake, hdrop]

/-- C6: the environment blob `"A=1\0B=2\0\0"` (code units, `0` as the
terminator) parses to exactly `["A=1", "B=2"]`; and in general an entry
containing no `=` separator (61) ends the result list before that entry,
whatever follows after its terminator. -/
theorem get_proc_env_parsing :
    get_proc_env (Except.ok [65, 61, 49, 0, 66, 61, 50, 0, 0]) =
      [[65, 61, 49], [66, 61, 50]] ∧
    (∀ (e rest : List Nat), (∀ c ∈ e, c ≠ 0) →
      e.any (fun c => c = 61) = false →
      env_split_loop (e ++ 0 :: rest) = []) := by
  constructor
  · have s1 : env_split_loop [65, 61, 49, 0, 66, 61, 50, 0, 0] =
        [65, 61, 49] :: env_split_loop [66, 61, 50, 0, 0] := by
      have h := env_split_loop_step [65, 61, 49] ([66, 61, 50] ++ 0 :: [0])
        (by decide)
      simpa using h
    have s2 : env_split_loop [66, 61, 50, 0, 0] =
        [66, 61, 50] :: env_split_loop [0] := by
      have h := env_split_loop_step [66, 61, 50] [0] (by decide)
      simpa using h
    have s3 : env_split_loop [0] = [] := by
      have h := env_split_loop_step [] [] (by decide)
      simpa using h
    show env_split_loop [65, 61, 49, 0, 66, 61, 50, 0, 0] =
      [[65, 61, 49], [66, 61, 50]]
    rw [s1, s2, s3]
  · intro e rest h0 h61
    rw [env_split_loop_step e rest h0]
    simp [h61]

/-- Witness for C6's truncation property: the blob `"B\0\0\a"` — whose
first entry `B` has no separator — parses to the empty list even though
further terminators follow. -/
theorem get_proc_env_parsing_witness :
    env_split_loop ([66] ++ 0 :: [0, 7]) = [] :=
  get_proc_env_parsing.2 [66] [0, 7] (by decide) (by decide)

end Sysinfo
